import Mathlib

/-!
Verification development for the personal-library retrieval engine
(backend/app: services/vector_store.py, services/rag_service.py,
services/embedding_service.py, routers/books.py, routers/search.py, main.py).

The Python code is shallowly embedded: the ChromaDB collection is a list of
index records, callable failures (`RuntimeError` from the disable switch,
model-load failures, an unreachable index backend) are `Except` errors,
and the external sentence-transformer and Groq generation calls are opaque
parameters of an `Env` record.  Real-valued embedding vectors are modelled
as lists of rationals; `cosineDistance` is the cosine distance specialised
to unit-norm vectors, where it is exactly `1 - ⟨u, v⟩` (ChromaDB's
`hnsw:space = cosine` computes `1 - ⟨u, v⟩ / (‖u‖ ‖v‖)`).
-/

namespace PLib

/-- Python `sep.join(xs)`. -/
def pyJoin (sep : String) : List String → String
  | [] => ""
  | [x] => x
  | x :: xs => x ++ sep ++ pyJoin sep xs

/-- Helper for `splitComma`: accumulate the current chunk (reversed). -/
def splitCommaAux (cur : List Char) : List Char → List String
  | [] => [String.mk cur.reverse]
  | c :: cs =>
    if c = ',' then String.mk cur.reverse :: splitCommaAux [] cs
    else splitCommaAux (c :: cur) cs

/-- Python `s.split(",")` (the code only calls it on non-empty strings). -/
def splitComma (s : String) : List String := splitCommaAux [] s.data

/-- `pat` is a prefix of `s` (on character lists). -/
def isPrefB : List Char → List Char → Bool
  | [], _ => true
  | _ :: _, [] => false
  | a :: as, b :: bs => a == b && isPrefB as bs

/-- `pat` occurs as a contiguous substring of `s` (on character lists). -/
def isSubChars (pat : List Char) : List Char → Bool
  | [] => isPrefB pat []
  | s₀ :: rest => isPrefB pat (s₀ :: rest) || isSubChars pat rest

/-- String containment test: `pat` occurs as a contiguous substring of `s`.
This models the `$contains` condition the code puts in the ChromaDB `where`
filter for the denormalized comma-joined tag strings (spec §4.3: native
filtering on the standalone variant is equality on scalars and contains on
denormalized tag strings). -/
def strContainsB (s pat : String) : Bool := isSubChars pat.data s.data

/-- Dot product of two rational vectors (missing tail entries count as 0). -/
def dotL : List ℚ → List ℚ → ℚ
  | a :: as, b :: bs => a * b + dotL as bs
  | _, _ => 0

/-- Cosine distance for unit-norm vectors: `1 - ⟨u, v⟩`.  ChromaDB's cosine
space computes `1 - ⟨u, v⟩ / (‖u‖ ‖v‖)`; on unit vectors that is `1 - ⟨u, v⟩`. -/
def cosineDistance (u v : List ℚ) : ℚ := 1 - dotL u v

/-- Insert `x` into `l` keeping `l` sorted by ascending `key`. -/
def insertK {α : Type} (key : α → ℚ) (x : α) : List α → List α
  | [] => [x]
  | y :: ys => if key x ≤ key y then x :: y :: ys else y :: insertK key x ys

/-- Insertion sort by ascending `key` (models the index returning nearest
neighbours in ascending-distance order; ties broken deterministically). -/
def sortK {α : Type} (key : α → ℚ) : List α → List α
  | [] => []
  | x :: xs => insertK key x (sortK key xs)

/-- Failure modes of the embedding/index services (spec §7 taxonomy).
`disabledError` is the `RuntimeError` both `EmbeddingService.model` and
`VectorStore._ensure_initialized` raise when `DISABLE_EMBEDDINGS` is set. -/
inductive SvcError where
  | modelUnavailable
  | indexUnavailable
  | disabledError
  deriving DecidableEq

/-- Process environment for one call: the `DISABLE_EMBEDDINGS` switch,
whether the ChromaDB backend is reachable, the (partial) sentence-transformer
embedding function, and the outcome of the external Groq generation call
(`none` = the call raises). -/
structure Env where
  disableEmbeddings : Bool
  indexAvailable : Bool
  embedFn : String → Option (List ℚ)
  genResult : Option String

/-- Relational `Book` row fields used by the vector-store paths. -/
structure Book where
  id : Nat
  title : String
  author : String
  description : Option String
  format : String
  readingStatus : String
  deriving DecidableEq

/-- A database book together with its `BookCategory` / `BookMood` relationship
rows, as read by `sync_from_database` and the routers. -/
structure DbBook where
  book : Book
  categories : List String
  moods : List String
  deriving DecidableEq

/-- One entry of the ChromaDB collection as written by
`VectorStore.add_book`: id, embedding, the metadata projection (title,
author, format, reading_status and the comma-joined category/mood strings)
and the embedded document text. -/
structure IndexRecord where
  id : Nat
  embedding : List ℚ
  title : String
  author : String
  format : String
  readingStatus : String
  categories : String
  moods : String
  document : String
  deriving DecidableEq

/-- A formatted search hit as produced by `VectorStore.search`. -/
structure SearchResult where
  id : Nat
  title : String
  author : String
  format : String
  readingStatus : String
  categories : List String
  moods : List String
  similarity : ℚ
  document : String
  deriving DecidableEq

/-- `EmbeddingService.embed_text`: raises when the disable switch is set or
the model cannot embed the text (model load/encode failure), otherwise
returns the vector. -/
def embedText (env : Env) (text : String) : Except SvcError (List ℚ) :=
  if env.disableEmbeddings then .error .disabledError
  else
    match env.embedFn text with
    | some v => .ok v
    | none => .error .modelUnavailable

/-- `VectorStore._ensure_initialized`: raises `RuntimeError` when the disable
switch is set, and fails when the ChromaDB backend is unreachable. -/
def ensureInitialized (env : Env) : Except SvcError Unit :=
  if env.disableEmbeddings then .error .disabledError
  else if env.indexAvailable then .ok () else .error .indexUnavailable

/-- `EmbeddingService._expand_categories`: the inline expansion table. -/
def catExpansions : String → Option (List String)
  | "mystery" => some ["mystery", "detective", "whodunit", "crime", "sleuth", "investigation"]
  | "thriller" => some ["thriller", "suspense", "tension", "danger", "action"]
  | "fiction" => some ["fiction", "novel", "story"]
  | "sci-fi" => some ["sci-fi", "science fiction", "futuristic", "space", "technology"]
  | "fantasy" => some ["fantasy", "magic", "mythical", "epic", "quest"]
  | "romance" => some ["romance", "love story", "romantic", "relationship"]
  | "horror" => some ["horror", "scary", "frightening", "dark", "supernatural"]
  | "non-fiction" => some ["non-fiction", "factual", "true", "informative"]
  | "self-help" => some ["self-help", "personal development", "improvement", "growth"]
  | "biography" => some ["biography", "life story", "memoir", "autobiographical"]
  | _ => none

/-- `EmbeddingService._expand_moods`: the inline expansion table. -/
def moodExpansions : String → Option (List String)
  | "cozy" => some ["cozy", "cosy", "comforting", "warm", "gentle", "light", "feel-good", "wholesome"]
  | "thrilling" => some ["thrilling", "exciting", "suspenseful", "tense", "gripping", "edge-of-seat"]
  | "heartwarming" => some ["heartwarming", "touching", "emotional", "sweet", "tender"]
  | "funny" => some ["funny", "humorous", "comedic", "witty", "amusing", "lighthearted"]
  | "dark" => some ["dark", "gritty", "bleak", "intense", "heavy"]
  | "inspiring" => some ["inspiring", "motivational", "uplifting", "empowering"]
  | "relaxing" => some ["relaxing", "calm", "peaceful", "soothing", "easy read"]
  | "adventurous" => some ["adventurous", "exciting", "action-packed", "journey"]
  | "thought-provoking" => some ["thought-provoking", "philosophical", "deep", "reflective"]
  | "suspenseful" => some ["suspenseful", "tense", "nail-biting", "page-turner"]
  | _ => none

/-- Expansion loop shared by `_expand_categories` / `_expand_moods`:
start from a copy of the tags and extend with not-yet-present keywords. -/
def expandTags (table : String → Option (List String)) (tags : List String) : List String :=
  tags.foldl
    (fun result tag =>
      match table tag with
      | some kws => result ++ kws.filter (fun kw => !result.contains kw)
      | none => result)
    tags

/-- `EmbeddingService.create_book_text`: the canonical embeddable text. -/
def createBookText (title author description : String)
    (categories moods : List String) : String :=
  let parts := ["Title: " ++ title, "Author: " ++ author]
  let parts := parts ++ (if description ≠ "" then ["Description: " ++ description] else [])
  let parts := parts ++
    (if categories ≠ [] then
      ["Categories: " ++ pyJoin ", " (expandTags catExpansions categories)] else [])
  let parts := parts ++
    (if moods ≠ [] then
      ["Moods: " ++ pyJoin ", " (expandTags moodExpansions moods)] else [])
  pyJoin " | " parts

/-- The canonical text of a database book (`book.description or ""`). -/
def bookText (b : DbBook) : String :=
  createBookText b.book.title b.book.author (b.book.description.getD "")
    b.categories b.moods

/-- The index entry `VectorStore.add_book` writes for a book: embedding of
the canonical text plus the denormalized metadata projection. -/
def mkRecord (b : Book) (categories moods : List String) (emb : List ℚ) :
    IndexRecord :=
  { id := b.id, embedding := emb, title := b.title, author := b.author,
    format := b.format, readingStatus := b.readingStatus,
    categories := pyJoin "," categories, moods := pyJoin "," moods,
    document := createBookText b.title b.author (b.description.getD "")
      categories moods }

/-- `VectorStore.add_book`: embed the canonical text, then `collection.add`
a record carrying the metadata projection.  The second component of the
result is the Python method's return value (it has no `return` statement,
so it returns `None`). -/
def addBook (env : Env) (st : List IndexRecord) (b : Book)
    (categories moods : List String) :
    Except SvcError (List IndexRecord × Option (List ℚ)) :=
  match embedText env
      (createBookText b.title b.author (b.description.getD "") categories moods) with
  | .error e => .error e
  | .ok emb =>
    match ensureInitialized env with
    | .error e => .error e
    | .ok _ => .ok (st ++ [mkRecord b categories moods emb], none)

/-- `VectorStore.delete_book`: `collection.delete` wrapped in
`try/except: pass` — failures (disable switch, unreachable index) are
swallowed and the collection is left unchanged. -/
def vsDeleteBook (env : Env) (st : List IndexRecord) (bookId : Nat) :
    List IndexRecord :=
  match ensureInitialized env with
  | .ok _ => st.filter (fun r => !(r.id == bookId))
  | .error _ => st

/-- `VectorStore.update_book`: delete the existing record (best-effort),
then re-add.  On a re-add failure the deletion has already happened. -/
def updateBookVS (env : Env) (st : List IndexRecord) (b : Book)
    (categories moods : List String) :
    Except SvcError (List IndexRecord × Option (List ℚ)) :=
  addBook env (vsDeleteBook env st b.id) b categories moods

/-- One Python-truthiness filter condition: `None` and `""` add no
condition (`if category:` etc. in `VectorStore.search`). -/
def condHolds (v : Option String) (p : String → Bool) : Bool :=
  match v with
  | none => true
  | some s => if s == "" then true else p s

/-- The conjunction of `where` conditions `VectorStore.search` builds:
`$contains` on the comma-joined category/mood strings, equality on
format/reading_status. -/
def matchesWhere (category mood format readingStatus : Option String)
    (r : IndexRecord) : Bool :=
  condHolds category (fun c => strContainsB r.categories c) &&
  condHolds mood (fun m => strContainsB r.moods m) &&
  condHolds format (fun f => r.format == f) &&
  condHolds readingStatus (fun s => r.readingStatus == s)

/-- Result formatting in `VectorStore.search`: split the comma-joined tag
strings back into lists (empty string → empty list, Python truthiness) and
convert the returned distance to a similarity (`1 - distance`). -/
def formatRecord (qe : List ℚ) (r : IndexRecord) : SearchResult :=
  { id := r.id, title := r.title, author := r.author, format := r.format,
    readingStatus := r.readingStatus,
    categories := if r.categories == "" then [] else splitComma r.categories,
    moods := if r.moods == "" then [] else splitComma r.moods,
    similarity := 1 - cosineDistance qe r.embedding,
    document := r.document }

/-- `VectorStore.search`: embed the query, then run one `collection.query`
with `n_results` and the full `where` filter (all four conditions passed
natively), i.e. the `n` nearest matching records in ascending-distance
order, formatted. -/
def vectorStoreSearch (env : Env) (st : List IndexRecord) (query : String)
    (n : Nat) (category mood format readingStatus : Option String) :
    Except SvcError (List SearchResult) :=
  match embedText env query with
  | .error e => .error e
  | .ok qe =>
    match ensureInitialized env with
    | .error e => .error e
    | .ok _ =>
      .ok (((sortK (fun r => cosineDistance qe r.embedding)
              (st.filter (matchesWhere category mood format readingStatus))).take n).map
            (formatRecord qe))

/-- The fixed no-matches message of `RAGService.search`. -/
def noMatchesMessage : String :=
  "I couldn\x27t find any books matching your query. Try adding some books to your library first!"

/-- The deterministic fallback of `RAGService._generate_response`: a
templated sentence naming the first three retrieved titles. -/
def fallbackResponse (books : List SearchResult) : String :=
  "Based on your query, you might enjoy: " ++
    pyJoin ", " ((books.take 3).map (fun b => "\x27" ++ b.title ++ "\x27")) ++
    ". (Note: AI-enhanced responses are currently unavailable.)"

/-- `RAGService._generate_response`: return the Groq completion verbatim,
falling back to the templated sentence if the call raises. -/
def generateResponse (gen : Option String) (books : List SearchResult) : String :=
  match gen with
  | some text => text
  | none => fallbackResponse books

/-- The answer/book-list pair returned by `RAGService.search`. -/
structure RagResult where
  response : String
  books : List SearchResult
  deriving DecidableEq

/-- `RAGService.search`: retrieve, short-circuit on an empty result list,
otherwise generate (with fallback).  Retrieval failures are NOT caught. -/
def ragSearch (env : Env) (st : List IndexRecord) (query : String) (n : Nat)
    (category mood format readingStatus : Option String) :
    Except SvcError RagResult :=
  match vectorStoreSearch env st query n category mood format readingStatus with
  | .error e => .error e
  | .ok results =>
    if results.isEmpty then .ok { response := noMatchesMessage, books := [] }
    else .ok { response := generateResponse env.genResult results, books := results }

/-- The book list of a `ragSearch` outcome. -/
def ragBooks (env : Env) (st : List IndexRecord) (query : String) (n : Nat)
    (category mood format readingStatus : Option String) :
    Except SvcError (List SearchResult) :=
  (ragSearch env st query n category mood format readingStatus).map RagResult.books

/-- A search hit as serialized by the `/api/search/query` response model
(`SearchBookResult`, without the raw document). -/
structure ApiBookResult where
  id : Nat
  title : String
  author : String
  format : String
  readingStatus : String
  categories : List String
  moods : List String
  similarity : ℚ
  deriving DecidableEq

/-- Drop the document field, as the router's response model does. -/
def toApiResult (r : SearchResult) : ApiBookResult :=
  { id := r.id, title := r.title, author := r.author, format := r.format,
    readingStatus := r.readingStatus, categories := r.categories,
    moods := r.moods, similarity := r.similarity }

/-- The `/api/search/query` response body. -/
structure ApiSearchResponse where
  response : String
  books : List ApiBookResult
  deriving DecidableEq

/-- `routers/search.py: search_books`: call `RAGService.search` and convert.
The endpoint installs no exception handler, so a retrieval failure
propagates out of the handler (an unhandled exception, i.e. a 5xx). -/
def searchBooksEndpoint (env : Env) (st : List IndexRecord) (query : String)
    (n : Nat) (category mood format readingStatus : Option String) :
    Except SvcError ApiSearchResponse :=
  (ragSearch env st query n category mood format readingStatus).map
    (fun r => { response := r.response, books := r.books.map toApiResult })

/-- Whether `Except` holds a value. -/
def isOkE {ε α : Type} : Except ε α → Bool
  | .ok _ => true
  | .error _ => false

/-- The book list of an ok search outcome (`[]` on error). -/
def okBooks : Except SvcError (List SearchResult) → List SearchResult
  | .ok l => l
  | .error _ => []

/-- Whether `add_book` succeeds for this book in this environment
(independent of the collection contents). -/
def addSucceeds (env : Env) (b : DbBook) : Bool :=
  isOkE (addBook env [] b.book b.categories b.moods)

/-- The loop of `VectorStore.sync_from_database`: `existing` is the id set
snapshot taken before the loop; per-book failures are logged and skipped;
the count reflects only successes. -/
def syncAux (env : Env) (existing : List Nat) :
    List DbBook → List IndexRecord → Nat → List IndexRecord × Nat
  | [], st, count => (st, count)
  | b :: rest, st, count =>
    if existing.contains b.book.id then syncAux env existing rest st count
    else
      match addBook env st b.book b.categories b.moods with
      | .ok (st2, _) => syncAux env existing rest st2 (count + 1)
      | .error _ => syncAux env existing rest st count

/-- `VectorStore.sync_from_database` (the reconciler): `get_all_book_ids`
first touches the collection (raising when disabled/unreachable), then the
repair loop runs over the database books. -/
def syncFromDatabase (env : Env) (books : List DbBook) (st : List IndexRecord) :
    Except SvcError (List IndexRecord × Nat) :=
  match ensureInitialized env with
  | .error e => .error e
  | .ok _ => .ok (syncAux env (st.map (fun r => r.id)) books st 0)

/-- `main.sync_vector_store` (startup reconcile): skipped entirely when the
disable switch is set; otherwise best-effort — any exception is caught and
logged, leaving the collection as it was.  (The caller passes the ORM
session where `sync_from_database` expects the book list; we model the
intended iteration over the database's books.) -/
def syncVectorStoreStartup (env : Env) (books : List DbBook)
    (st : List IndexRecord) : List IndexRecord × Nat :=
  if env.disableEmbeddings then (st, 0)
  else
    match syncFromDatabase env books st with
    | .ok r => r
    | .error _ => (st, 0)

/-- `routers/books.py: delete_book`: 404 (`none`) when the id is unknown;
otherwise best-effort vector-store deletion (exceptions swallowed twice)
followed by the relational delete.  Returns the remaining database rows and
the resulting collection. -/
def deleteBookFlow (env : Env) (db : List DbBook) (st : List IndexRecord)
    (bookId : Nat) : Option (List DbBook × List IndexRecord) :=
  if db.any (fun b => b.book.id == bookId) then
    some (db.filter (fun b => !(b.book.id == bookId)), vsDeleteBook env st bookId)
  else none

/-- The embedding-column assignment in `routers/books.py: create_book`: a
fresh row starts with `embedding = None`; on success the `add_book` return
value (`None`) is assigned; on failure the assignment is skipped.  Returns
the committed row's embedding column and the resulting collection. -/
def createBookFlow (env : Env) (st : List IndexRecord) (b : Book)
    (categories moods : List String) : Option (List ℚ) × List IndexRecord :=
  match addBook env st b categories moods with
  | .ok (st2, ret) => (ret, st2)
  | .error _ => (none, st)

/-- The embedding-column assignment in `routers/books.py: update_book`:
`update_book` deletes then re-adds; on success its return value (`None`) is
assigned, on failure the row keeps its prior embedding column (and the
best-effort delete may already have happened). -/
def updateBookFlow (env : Env) (st : List IndexRecord) (b : Book)
    (categories moods : List String) (prior : Option (List ℚ)) :
    Option (List ℚ) × List IndexRecord :=
  match addBook env (vsDeleteBook env st b.id) b categories moods with
  | .ok (st2, ret) => (ret, st2)
  | .error _ => (prior, vsDeleteBook env st b.id)

/-- Modelled from the spec (§4.5 steps 1–2), for comparison with the code:
over-fetch `2 k` candidates restricted to the natively-supported filters
(format, status) only, then post-filter by category/mood set-membership in
similarity order, stopping at `k` survivors. -/
def specOverfetchPostfilter (env : Env) (st : List IndexRecord) (query : String)
    (k : Nat) (category mood format readingStatus : Option String) :
    Except SvcError (List SearchResult) :=
  match embedText env query with
  | .error e => .error e
  | .ok qe =>
    match ensureInitialized env with
    | .error e => .error e
    | .ok _ =>
      let native := st.filter (matchesWhere none none format readingStatus)
      let candidates :=
        ((sortK (fun r => cosineDistance qe r.embedding) native).take (2 * k)).map
          (formatRecord qe)
      let survivors := candidates.filter (fun res =>
        (match category with
         | some c => res.categories.contains c
         | none => true) &&
        (match mood with
         | some m => res.moods.contains m
         | none => true))
      .ok (survivors.take k)

/-! Concrete fixtures used by counterexamples and witnesses. -/

/-- A fully available environment whose model embeds every text to `[1]`
and whose generation call succeeds. -/
def envOk : Env :=
  { disableEmbeddings := false, indexAvailable := true,
    embedFn := fun _ => some [(1 : ℚ)], genResult := some "Here you go." }

/-- Same as `envOk` but the generation call raises. -/
def envNoGen : Env :=
  { disableEmbeddings := false, indexAvailable := true,
    embedFn := fun _ => some [(1 : ℚ)], genResult := none }

/-- The `DISABLE_EMBEDDINGS=true` environment. -/
def envDisabled : Env :=
  { disableEmbeddings := true, indexAvailable := true,
    embedFn := fun _ => some [(1 : ℚ)], genResult := none }

/-- The sentence-transformer model is unavailable (fails to load/encode). -/
def envNoModel : Env :=
  { disableEmbeddings := false, indexAvailable := true,
    embedFn := fun _ => none, genResult := none }

/-- The ChromaDB backend is unreachable. -/
def envNoIndex : Env :=
  { disableEmbeddings := false, indexAvailable := false,
    embedFn := fun _ => some [(1 : ℚ)], genResult := none }

/-- An environment embedding every text to the 2-d unit vector `[1, 0]`. -/
def envDim2 : Env :=
  { disableEmbeddings := false, indexAvailable := true,
    embedFn := fun _ => some [(1 : ℚ), 0], genResult := none }

/-- A stored record whose single category tag is `dark-fantasy`. -/
def recDark : IndexRecord :=
  { id := 1, embedding := [(1 : ℚ)], title := "Shadowlands", author := "A. Writer",
    format := "physical", readingStatus := "unread",
    categories := "dark-fantasy", moods := "", document := "doc1" }

/-- A stored record with no tags, embedded at `[1]`. -/
def recPlain : IndexRecord :=
  { id := 1, embedding := [(1 : ℚ)], title := "Dune", author := "Frank Herbert",
    format := "kindle", readingStatus := "completed",
    categories := "", moods := "", document := "doc2" }

/-- A second plain record, embedded at `[-1]` (opposite direction). -/
def recOpp : IndexRecord :=
  { id := 2, embedding := [(-1 : ℚ)], title := "Contact", author := "Carl Sagan",
    format := "kindle", readingStatus := "unread",
    categories := "", moods := "", document := "doc3" }

/-- Three 2-d records: the two nearest have category `x`/`y`, the farthest
has category `fantasy`. -/
def recNear : IndexRecord :=
  { id := 1, embedding := [(1 : ℚ), 0], title := "Near", author := "N",
    format := "physical", readingStatus := "unread",
    categories := "x", moods := "", document := "d1" }

def recMid : IndexRecord :=
  { id := 2, embedding := [(0 : ℚ), 1], title := "Mid", author := "M",
    format := "physical", readingStatus := "unread",
    categories := "y", moods := "", document := "d2" }

def recFar : IndexRecord :=
  { id := 3, embedding := [(-1 : ℚ), 0], title := "Far", author := "F",
    format := "physical", readingStatus := "unread",
    categories := "fantasy", moods := "", document := "d3" }

/-- The formatted hit for `recDark` under query embedding `[1]`. -/
def resDarkR : SearchResult :=
  { id := 1, title := "Shadowlands", author := "A. Writer", format := "physical",
    readingStatus := "unread", categories := ["dark-fantasy"], moods := [],
    similarity := 1, document := "doc1" }

/-- The formatted hit for `recPlain` under query embedding `[1]`. -/
def resPlainR : SearchResult :=
  { id := 1, title := "Dune", author := "Frank Herbert", format := "kindle",
    readingStatus := "completed", categories := [], moods := [],
    similarity := 1, document := "doc2" }

/-- The formatted hit for `recOpp` under query embedding `[1]`. -/
def resOppR : SearchResult :=
  { id := 2, title := "Contact", author := "Carl Sagan", format := "kindle",
    readingStatus := "unread", categories := [], moods := [],
    similarity := -1, document := "doc3" }

/-- A database book matching `recPlain`. -/
def dbPlain : DbBook :=
  { book := { id := 1, title := "Dune", author := "Frank Herbert",
              description := none, format := "kindle",
              readingStatus := "completed" },
    categories := [], moods := [] }

/-- A second database book, id 2. -/
def dbSecond : DbBook :=
  { book := { id := 2, title := "Contact", author := "Carl Sagan",
              description := none, format := "kindle",
              readingStatus := "unread" },
    categories := [], moods := [] }

/-! Helper lemmas. -/

theorem mem_insertK {α : Type} (key : α → ℚ) (x : α) (l : List α) (a : α) :
    a ∈ insertK key x l ↔ a = x ∨ a ∈ l := by
  induction l with
  | nil => simp [insertK]
  | cons y ys ih =>
    simp only [insertK]
    split
    · simp [List.mem_cons]
    · simp only [List.mem_cons, ih]
      tauto

theorem mem_sortK {α : Type} (key : α → ℚ) (l : List α) (a : α) :
    a ∈ sortK key l ↔ a ∈ l := by
  induction l with
  | nil => simp [sortK]
  | cons x xs ih => simp [sortK, mem_insertK, ih]

theorem length_insertK {α : Type} (key : α → ℚ) (x : α) (l : List α) :
    (insertK key x l).length = l.length + 1 := by
  induction l with
  | nil => simp [insertK]
  | cons y ys ih =>
    simp only [insertK]
    split
    · simp
    · simp [ih]

theorem length_sortK {α : Type} (key : α → ℚ) (l : List α) :
    (sortK key l).length = l.length := by
  induction l with
  | nil => rfl
  | cons x xs ih => simp [sortK, length_insertK, ih]

theorem pairwise_insertK {α : Type} (key : α → ℚ) (x : α) (l : List α)
    (h : l.Pairwise (fun a b => key a ≤ key b)) :
    (insertK key x l).Pairwise (fun a b => key a ≤ key b) := by
  induction l with
  | nil => simp [insertK]
  | cons y ys ih =>
    rcases List.pairwise_cons.1 h with ⟨hy, hys⟩
    simp only [insertK]
    split
    · rename_i hxy
      refine List.pairwise_cons.2 ⟨?_, h⟩
      intro b hb
      rcases List.mem_cons.1 hb with rfl | hb
      · exact hxy
      · exact le_trans hxy (hy b hb)
    · rename_i hxy
      refine List.pairwise_cons.2 ⟨?_, ih hys⟩
      intro b hb
      rcases (mem_insertK key x ys b).1 hb with rfl | hb
      · exact le_of_not_le hxy
      · exact hy b hb

theorem pairwise_sortK {α : Type} (key : α → ℚ) (l : List α) :
    (sortK key l).Pairwise (fun a b => key a ≤ key b) := by
  induction l with
  | nil => simp [sortK]
  | cons x xs ih => exact pairwise_insertK key x _ ih

theorem vectorStoreSearch_ok_elim {env : Env} {st : List IndexRecord}
    {q : String} {n : Nat} {c m f s : Option String} {l : List SearchResult}
    (h : vectorStoreSearch env st q n c m f s = .ok l) :
    ∃ qe, embedText env q = .ok qe ∧ ensureInitialized env = .ok () ∧
      l = ((sortK (fun r => cosineDistance qe r.embedding)
              (st.filter (matchesWhere c m f s))).take n).map (formatRecord qe) := by
  unfold vectorStoreSearch at h
  cases hE : embedText env q with
  | error e => rw [hE] at h; exact absurd h (by simp)
  | ok qe =>
    rw [hE] at h
    cases hI : ensureInitialized env with
    | error e => rw [hI] at h; exact absurd h (by simp)
    | ok u =>
      rw [hI] at h
      exact ⟨qe, rfl, by cases u; rfl, by injection h with h; exact h.symm⟩

theorem search_result_sourced {env : Env} {st : List IndexRecord}
    {q : String} {n : Nat} {c m f s : Option String} {l : List SearchResult}
    (h : vectorStoreSearch env st q n c m f s = .ok l) :
    ∀ res ∈ l, ∃ qe r, embedText env q = .ok qe ∧ r ∈ st ∧
      matchesWhere c m f s r = true ∧ res = formatRecord qe r := by
  rcases vectorStoreSearch_ok_elim h with ⟨qe, hE, _, rfl⟩
  intro res hres
  rcases List.mem_map.1 hres with ⟨r, hr, rfl⟩
  have hr' : r ∈ sortK (fun r => cosineDistance qe r.embedding)
      (st.filter (matchesWhere c m f s)) := List.take_subset _ _ hr
  have hr'' : r ∈ st.filter (matchesWhere c m f s) := (mem_sortK _ _ r).1 hr'
  rcases List.mem_filter.1 hr'' with ⟨hmem, hmatch⟩
  exact ⟨qe, r, hE, hmem, hmatch, rfl⟩

theorem dotL_nil_left (v : List ℚ) : dotL [] v = 0 := by cases v <;> rfl

theorem dotL_nil_right (u : List ℚ) : dotL u [] = 0 := by cases u <;> rfl

theorem dotL_cons (a : ℚ) (as : List ℚ) (b : ℚ) (bs : List ℚ) :
    dotL (a :: as) (b :: bs) = a * b + dotL as bs := rfl

theorem dotL_self_nonneg (v : List ℚ) : 0 ≤ dotL v v := by
  induction v with
  | nil => simp [dotL_nil_left]
  | cons a as ih =>
    have : 0 ≤ a * a := mul_self_nonneg a
    rw [dotL_cons]
    linarith

theorem dotL_sq_le (u v : List ℚ) : dotL u v * dotL u v ≤ dotL u u * dotL v v := by
  induction u generalizing v with
  | nil =>
    rw [dotL_nil_left, dotL_nil_left]
    simp [mul_nonneg (dotL_self_nonneg ([] : List ℚ)) (dotL_self_nonneg v)]
  | cons a as ih =>
    cases v with
    | nil =>
      rw [dotL_nil_right, dotL_nil_right]
      simp [mul_nonneg (dotL_self_nonneg (a :: as)) (dotL_self_nonneg ([] : List ℚ))]
    | cons b bs =>
      rw [dotL_cons, dotL_cons, dotL_cons]
      have h := ih bs
      have hnu : 0 ≤ dotL as as := dotL_self_nonneg as
      have hnv : 0 ≤ dotL bs bs := dotL_self_nonneg bs
      set d := dotL as bs with hd
      set nu := dotL as as with hnud
      set nv := dotL bs bs with hnvd
      by_cases hY : 2 * (a * b * d) ≤ 0
      · nlinarith [mul_nonneg (mul_self_nonneg a) hnv, mul_nonneg (mul_self_nonneg b) hnu]
      · push_neg at hY
        have hX : 0 ≤ a * a * nv + b * b * nu :=
          add_nonneg (mul_nonneg (mul_self_nonneg a) hnv)
            (mul_nonneg (mul_self_nonneg b) hnu)
        have h2 : (2 * (a * b * d)) * (2 * (a * b * d)) ≤
            (a * a * nv + b * b * nu) * (a * a * nv + b * b * nu) := by
          nlinarith [sq_nonneg (a * a * nv - b * b * nu), mul_self_nonneg (a * b), h]
        have h3 : 2 * (a * b * d) ≤ a * a * nv + b * b * nu := by
          by_contra hc
          push_neg at hc
          have hlt : (a * a * nv + b * b * nu) * (a * a * nv + b * b * nu) <
              (2 * (a * b * d)) * (2 * (a * b * d)) := by nlinarith
          linarith
        nlinarith

theorem addBook_isOk_indep (env : Env) (st st' : List IndexRecord) (b : Book)
    (cats moods : List String) :
    isOkE (addBook env st b cats moods) = isOkE (addBook env st' b cats moods) := by
  cases hE : embedText env
      (createBookText b.title b.author (b.description.getD "") cats moods) with
  | error e => simp [addBook, hE, isOkE]
  | ok emb =>
    cases hI : ensureInitialized env with
    | error e => simp [addBook, hE, hI, isOkE]
    | ok u => simp [addBook, hE, hI, isOkE]

theorem addBook_ok_of_succeeds {env : Env} {b : DbBook}
    (h : addSucceeds env b = true) (st : List IndexRecord) :
    ∃ emb, addBook env st b.book b.categories b.moods =
      .ok (st ++ [mkRecord b.book b.categories b.moods emb], none) := by
  unfold addSucceeds at h
  rw [addBook_isOk_indep env [] st] at h
  cases hE : embedText env (createBookText b.book.title b.book.author
      (b.book.description.getD "") b.categories b.moods) with
  | error e => simp [addBook, hE, isOkE] at h
  | ok emb =>
    cases hI : ensureInitialized env with
    | error e => simp [addBook, hE, hI, isOkE] at h
    | ok u => exact ⟨emb, by cases u; simp [addBook, hE, hI]⟩

theorem addBook_error_of_not_succeeds {env : Env} {b : DbBook}
    (h : addSucceeds env b = false) (st : List IndexRecord) :
    ∃ e, addBook env st b.book b.categories b.moods = .error e := by
  unfold addSucceeds at h
  rw [addBook_isOk_indep env [] st] at h
  cases hA : addBook env st b.book b.categories b.moods with
  | error e => exact ⟨e, rfl⟩
  | ok p => simp [hA, isOkE] at h

theorem syncAux_snd (env : Env) (ex : List Nat) (books : List DbBook)
    (st : List IndexRecord) (count : Nat) :
    (syncAux env ex books st count).2 =
      count + (books.filter
        (fun b => !ex.contains b.book.id && addSucceeds env b)).length := by
  induction books generalizing st count with
  | nil => simp [syncAux]
  | cons b rest ih =>
    by_cases hc : b.book.id ∈ ex
    · simp [syncAux, hc, List.filter_cons, ih]
    · cases hA : addBook env st b.book b.categories b.moods with
      | ok p =>
        have hs : addSucceeds env b = true := by
          unfold addSucceeds
          rw [addBook_isOk_indep env [] st, hA]
          rfl
        cases p with
        | mk st2 ret =>
          simp [syncAux, hc, hA, List.filter_cons, hs, ih]
          omega
      | error e =>
        have hs : addSucceeds env b = false := by
          unfold addSucceeds
          rw [addBook_isOk_indep env [] st, hA]
          rfl
        simp [syncAux, hc, hA, List.filter_cons, hs, ih]

theorem syncAux_fst_ids (env : Env) (ex : List Nat) (books : List DbBook)
    (st : List IndexRecord) (count : Nat) :
    (syncAux env ex books st count).1.map (fun r => r.id) =
      st.map (fun r => r.id) ++
        (books.filter (fun b => !ex.contains b.book.id && addSucceeds env b)).map
          (fun b => b.book.id) := by
  induction books generalizing st count with
  | nil => simp [syncAux]
  | cons b rest ih =>
    by_cases hc : b.book.id ∈ ex
    · simp [syncAux, hc, List.filter_cons, ih]
    · cases hA : addBook env st b.book b.categories b.moods with
      | ok p =>
        have hs : addSucceeds env b = true := by
          unfold addSucceeds
          rw [addBook_isOk_indep env [] st, hA]
          rfl
        rcases addBook_ok_of_succeeds hs st with ⟨emb, hEq⟩
        rw [hA] at hEq
        injection hEq with hEq
        cases p with
        | mk st2 ret =>
          injection hEq with h1 h2
          subst h1
          simp [syncAux, hc, hA, List.filter_cons, hs, ih, mkRecord]
      | error e =>
        have hs : addSucceeds env b = false := by
          unfold addSucceeds
          rw [addBook_isOk_indep env [] st, hA]
          rfl
        simp [syncAux, hc, hA, List.filter_cons, hs, ih]

theorem syncAux_noop (env : Env) (ex : List Nat) (books : List DbBook)
    (st : List IndexRecord) (count : Nat)
    (h : ∀ b ∈ books, b.book.id ∈ ex ∨ addSucceeds env b = false) :
    syncAux env ex books st count = (st, count) := by
  induction books generalizing st count with
  | nil => rfl
  | cons b rest ih =>
    have htail := fun x hx => h x (List.mem_cons_of_mem b hx)
    by_cases hc : b.book.id ∈ ex
    · rw [show syncAux env ex (b :: rest) st count = syncAux env ex rest st count by
        simp [syncAux, hc]]
      exact ih st count htail
    · rcases h b (List.mem_cons_self b rest) with hc' | hs
      · exact absurd hc' hc
      · rcases addBook_error_of_not_succeeds hs st with ⟨e, hE⟩
        rw [show syncAux env ex (b :: rest) st count = syncAux env ex rest st count by
          simp [syncAux, hc, hE]]
        exact ih st count htail

theorem pyJoin_cons (sep x : String) (xs : List String) :
    ∃ tail, pyJoin sep (x :: xs) = x ++ tail := by
  cases xs with
  | nil => exact ⟨"", by simp [pyJoin]⟩
  | cons y ys =>
    exact ⟨sep ++ pyJoin sep (y :: ys), by simp [pyJoin, String.append_assoc]⟩

/-! The claims. -/

/-- C1 (counterexample): at a concrete store and call, the orchestrator's
result differs from the spec's over-fetch-then-post-filter pipeline: with
`k = 1` and a category filter, the code returns the record the native
filter selects, while over-fetching `2` candidates under format/status
filters only and post-filtering by category yields no survivors. -/
theorem plc1_counterexample :
    ragBooks envDim2 [recNear, recMid, recFar] "q" 1 (some "fantasy") none none none ≠
      specOverfetchPostfilter envDim2 [recNear, recMid, recFar] "q" 1
        (some "fantasy") none none none := by
  norm_num +decide [ragBooks, ragSearch, specOverfetchPostfilter, vectorStoreSearch, embedText,
    envDim2, ensureInitialized, matchesWhere, condHolds, strContainsB, isSubChars, isPrefB,
    recNear, recMid, recFar, sortK, insertK, cosineDistance, dotL, formatRecord, splitComma,
    splitCommaAux, generateResponse, fallbackResponse, pyJoin, Except.map]

/-- C1 (amended): the orchestrator runs a single Vector Index query with
`n_results = k`, passing all four filters (category/mood as `$contains`
conditions, format/status as equality) natively in the `where` clause;
there is no `2 k` over-fetch and no post-filter pass — the returned books
are exactly the index query's result. -/
theorem plc1_amended (env : Env) (st : List IndexRecord) (q : String) (n : Nat)
    (c m f s : Option String) :
    ragBooks env st q n c m f s = vectorStoreSearch env st q n c m f s := by
  unfold ragBooks ragSearch
  cases h : vectorStoreSearch env st q n c m f s with
  | error e => rfl
  | ok results =>
    by_cases he : results.isEmpty
    · have : results = [] := List.isEmpty_iff.1 he
      subst this
      simp [Except.map]
    · simp [he, Except.map]

/-- C2 (counterexample): searching with category filter `fantasy` returns
the record whose only category tag is `dark-fantasy` (substring match on
the comma-joined tag string), and `fantasy` is not a member of that
result's category set. -/
theorem plc2_counterexample :
    (okBooks (vectorStoreSearch envOk [recDark] "q" 10 (some "fantasy") none none none)).map
        SearchResult.categories = [["dark-fantasy"]] ∧
      ¬ "fantasy" ∈ (["dark-fantasy"] : List String) := by
  constructor
  · norm_num +decide [okBooks, vectorStoreSearch, embedText, envOk, ensureInitialized,
      matchesWhere, condHolds, strContainsB, isSubChars, isPrefB, recDark, sortK, insertK,
      cosineDistance, dotL, formatRecord, splitComma, splitCommaAux]
  · decide

/-- C2 (amended): every returned result comes from a stored record that
satisfies the built `where` filter: a format filter matches the result's
format exactly and a reading-status filter matches exactly, while a
category (resp. mood) filter only guarantees that the filter string occurs
as a substring of the record's comma-joined category (resp. mood) string —
tag-set membership is not guaranteed. -/
theorem plc2_amended (env : Env) (st : List IndexRecord) (q : String) (n : Nat)
    (c m f s : Option String) (l : List SearchResult)
    (h : vectorStoreSearch env st q n c m f s = .ok l) :
    ∀ res ∈ l, ∃ qe r, embedText env q = .ok qe ∧ r ∈ st ∧
      res = formatRecord qe r ∧ matchesWhere c m f s r = true ∧
      (∀ fv, f = some fv → fv ≠ "" → res.format = fv) ∧
      (∀ sv, s = some sv → sv ≠ "" → res.readingStatus = sv) ∧
      (∀ cv, c = some cv → cv ≠ "" → strContainsB r.categories cv = true) ∧
      (∀ mv, m = some mv → mv ≠ "" → strContainsB r.moods mv = true) := by
  intro res hres
  rcases search_result_sourced h res hres with ⟨qe, r, hqe, hr, hmatch, rfl⟩
  have hm := hmatch
  simp only [matchesWhere, Bool.and_eq_true] at hm
  obtain ⟨⟨⟨hc, hmo⟩, hf⟩, hs⟩ := hm
  refine ⟨qe, r, hqe, hr, rfl, hmatch, ?_, ?_, ?_, ?_⟩
  · rintro fv rfl hfv
    have hx : (fv == "") = false := by simp [hfv]
    simp only [condHolds, hx, Bool.false_eq_true, if_false] at hf
    exact beq_iff_eq.1 hf
  · rintro sv rfl hsv
    have hx : (sv == "") = false := by simp [hsv]
    simp only [condHolds, hx, Bool.false_eq_true, if_false] at hs
    exact beq_iff_eq.1 hs
  · rintro cv rfl hcv
    have hx : (cv == "") = false := by simp [hcv]
    simp only [condHolds, hx, Bool.false_eq_true, if_false] at hc
    exact hc
  · rintro mv rfl hmv
    have hx : (mv == "") = false := by simp [hmv]
    simp only [condHolds, hx, Bool.false_eq_true, if_false] at hmo
    exact hmo

/-- C2 (witness): the amended theorem applied to the concrete
`dark-fantasy` search. -/
theorem plc2_amended_witness :
    ∃ qe r, embedText envOk "q" = .ok qe ∧ r ∈ [recDark] ∧
      resDarkR = formatRecord qe r ∧
      matchesWhere (some "fantasy") none none none r = true ∧
      (∀ fv, (none : Option String) = some fv → fv ≠ "" → resDarkR.format = fv) ∧
      (∀ sv, (none : Option String) = some sv → sv ≠ "" →
        resDarkR.readingStatus = sv) ∧
      (∀ cv, (some "fantasy" : Option String) = some cv → cv ≠ "" →
        strContainsB r.categories cv = true) ∧
      (∀ mv, (none : Option String) = some mv → mv ≠ "" →
        strContainsB r.moods mv = true) :=
  plc2_amended envOk [recDark] "q" 10 (some "fantasy") none none none [resDarkR]
    (by norm_num +decide [vectorStoreSearch, embedText, envOk, ensureInitialized,
      matchesWhere, condHolds, strContainsB, isSubChars, isPrefB, recDark, sortK, insertK,
      cosineDistance, dotL, formatRecord, splitComma, splitCommaAux, resDarkR])
    resDarkR (by simp)

/-- C3 (counterexample): the index backend is unreachable while the delete
endpoint runs; both `try/except` layers swallow the failure, the relational
delete completes (HTTP 204), and a later search — with the index reachable
again — still returns the deleted id 1. -/
theorem plc3_counterexample :
    deleteBookFlow envNoIndex [dbPlain] [recPlain] 1 = some ([], [recPlain]) ∧
      (okBooks (vectorStoreSearch envOk [recPlain] "q" 10 none none none none)).map
        SearchResult.id = [1] := by
  constructor
  · simp +decide [deleteBookFlow, envNoIndex, dbPlain, recPlain, vsDeleteBook,
      ensureInitialized]
  · norm_num +decide [okBooks, vectorStoreSearch, embedText, envOk, ensureInitialized,
      matchesWhere, condHolds, recPlain, sortK, insertK, cosineDistance, dotL, formatRecord]

/-- C3 (amended): cascading deletion is best-effort, not mandatory — but
when the index is reachable at delete time (the vector-store delete
succeeds), no subsequent search over the resulting collection returns the
deleted id, regardless of query or filters. -/
theorem plc3_amended (envD envS : Env) (db : List DbBook) (st : List IndexRecord)
    (bookId : Nat) (db2 : List DbBook) (st2 : List IndexRecord)
    (hdel : deleteBookFlow envD db st bookId = some (db2, st2))
    (hinit : ensureInitialized envD = .ok ())
    (q : String) (n : Nat) (c m f s : Option String) (l : List SearchResult)
    (hsearch : vectorStoreSearch envS st2 q n c m f s = .ok l) :
    ∀ res ∈ l, res.id ≠ bookId := by
  have hst2 : st2 = st.filter (fun r => !(r.id == bookId)) := by
    unfold deleteBookFlow at hdel
    split at hdel
    · simp only [Option.some.injEq, Prod.mk.injEq] at hdel
      rw [← hdel.2]
      unfold vsDeleteBook
      rw [hinit]
    · exact absurd hdel (by simp)
  subst hst2
  intro res hres
  rcases search_result_sourced hsearch res hres with ⟨qe, r, _, hr, _, rfl⟩
  rcases List.mem_filter.1 hr with ⟨_, hpred⟩
  have : (r.id == bookId) = false := by
    cases hrb : (r.id == bookId)
    · rfl
    · rw [hrb] at hpred; exact absurd hpred (by decide)
  have hne : r.id ≠ bookId := by
    intro hcontra
    rw [hcontra] at this
    simp at this
  exact hne

/-- C3 (witness): delete id 1 with the index reachable, then search — the
sole surviving result has id 2, not 1. -/
theorem plc3_amended_witness :
    resOppR.id ≠ 1 :=
  plc3_amended envOk envOk [dbPlain, dbSecond] [recPlain, recOpp] 1
    [dbSecond] [recOpp]
    (by simp +decide [deleteBookFlow, envOk, dbPlain, dbSecond, recPlain, recOpp,
      vsDeleteBook, ensureInitialized])
    rfl "q" 10 none none none none [resOppR]
    (by norm_num +decide [vectorStoreSearch, embedText, envOk, ensureInitialized,
      matchesWhere, condHolds, recOpp, sortK, insertK, cosineDistance, dotL,
      formatRecord, resOppR])
    resOppR (by simp)

/-- C4 (counterexample): with the embedding model unavailable, the search
endpoint does not degrade to empty results — the failure propagates out of
the handler (an unhandled `ModelUnavailable`, i.e. a 5xx), and in
particular the endpoint does not return the degraded no-matches response. -/
theorem plc4_counterexample :
    searchBooksEndpoint envNoModel [] "q" 10 none none none none =
        .error .modelUnavailable ∧
      searchBooksEndpoint envNoModel [] "q" 10 none none none none ≠
        .ok { response := noMatchesMessage, books := [] } := by
  constructor
  · simp [searchBooksEndpoint, ragSearch, vectorStoreSearch, embedText, envNoModel,
      Except.map]
  · simp [searchBooksEndpoint, ragSearch, vectorStoreSearch, embedText, envNoModel,
      Except.map]

/-- C4 (amended): whenever the embedding model or the vector index is
unavailable (disable switch set, model load/encode failure, or index
backend unreachable), the search endpoint surfaces an error — no handler
catches it — instead of degrading to an empty-result response. -/
theorem plc4_amended (env : Env) (st : List IndexRecord) (q : String) (n : Nat)
    (c m f s : Option String)
    (h : env.disableEmbeddings = true ∨ env.embedFn q = none ∨
      env.indexAvailable = false) :
    ∃ e, searchBooksEndpoint env st q n c m f s = .error e := by
  by_cases hd : env.disableEmbeddings = true
  · exact ⟨.disabledError, by
      simp [searchBooksEndpoint, ragSearch, vectorStoreSearch, embedText, hd, Except.map]⟩
  · have hd' : env.disableEmbeddings = false := by simpa using hd
    rcases h with h | h | h
    · exact absurd h hd
    · exact ⟨.modelUnavailable, by
        simp [searchBooksEndpoint, ragSearch, vectorStoreSearch, embedText, hd', h,
          Except.map]⟩
    · cases hq : env.embedFn q with
      | none =>
        exact ⟨.modelUnavailable, by
          simp [searchBooksEndpoint, ragSearch, vectorStoreSearch, embedText, hd', hq,
            Except.map]⟩
      | some v =>
        exact ⟨.indexUnavailable, by
          simp [searchBooksEndpoint, ragSearch, vectorStoreSearch, embedText,
            ensureInitialized, hd', hq, h, Except.map]⟩

/-- C4 (witness): the amended theorem at the concrete model-unavailable
environment. -/
theorem plc4_amended_witness :
    ∃ e, searchBooksEndpoint envNoModel [] "q" 10 none none none none = .error e :=
  plc4_amended envNoModel [] "q" 10 none none none none (Or.inr (Or.inl rfl))

/-- C5 (counterexample): with `DISABLE_EMBEDDINGS=true`, `embed_text` and
`VectorStore.search` raise (`RuntimeError`) rather than being no-ops
returning empty results. -/
theorem plc5_counterexample :
    embedText envDisabled "x" = .error .disabledError ∧
      vectorStoreSearch envDisabled [] "x" 10 none none none none =
        .error .disabledError ∧
      embedText envDisabled "x" ≠ .ok [] := by
  refine ⟨by simp [embedText, envDisabled], by
    simp [vectorStoreSearch, embedText, envDisabled], by
    simp [embedText, envDisabled]⟩

/-- C5 (amended): when the environment-level disable switch is set, the
startup reconcile (`main.sync_vector_store`) is a no-op leaving the
collection unchanged and syncing 0 books, but `embed` and `query` raise the
disabled `RuntimeError` instead of returning empty results. -/
theorem plc5_amended (env : Env) (books : List DbBook) (st : List IndexRecord)
    (t q : String) (n : Nat) (c m f s : Option String)
    (hd : env.disableEmbeddings = true) :
    embedText env t = .error .disabledError ∧
      vectorStoreSearch env st q n c m f s = .error .disabledError ∧
      syncVectorStoreStartup env books st = (st, 0) := by
  exact ⟨by simp [embedText, hd], by simp [vectorStoreSearch, embedText, hd], by
    simp [syncVectorStoreStartup, hd]⟩

/-- C5 (witness): the amended theorem at the concrete disabled environment. -/
theorem plc5_amended_witness :
    embedText envDisabled "t" = .error .disabledError ∧
      vectorStoreSearch envDisabled [recPlain] "q" 10 none none none none =
        .error .disabledError ∧
      syncVectorStoreStartup envDisabled [dbPlain] [recPlain] = ([recPlain], 0) :=
  plc5_amended envDisabled [dbPlain] [recPlain] "t" "q" 10 none none none none rfl

/-- C6: when the external generation call fails and retrieval is
non-empty, `RAGService.search` returns the deterministic templated
fallback, which is non-empty and names the first retrieved title (the
template quotes up to the top 3 titles); the search path does not fail. -/
theorem plc6_fallback (env : Env) (st : List IndexRecord) (q : String) (n : Nat)
    (c m f s : Option String) (l : List SearchResult)
    (hGen : env.genResult = none)
    (h : vectorStoreSearch env st q n c m f s = .ok l) (hne : l ≠ []) :
    ragSearch env st q n c m f s =
        .ok { response := fallbackResponse l, books := l } ∧
      fallbackResponse l ≠ "" ∧
      ∃ t ∈ l.map SearchResult.title, ∃ pre post,
        fallbackResponse l = pre ++ t ++ post := by
  have hEmpty : l.isEmpty = false := by
    cases l with
    | nil => exact absurd rfl hne
    | cons a as => rfl
  refine ⟨?_, ?_⟩
  · unfold ragSearch
    rw [h]
    simp [hEmpty, generateResponse, hGen]
  cases l with
  | nil => exact absurd rfl hne
  | cons b rest =>
    have hstruct : ∃ tail, fallbackResponse (b :: rest) =
        ("Based on your query, you might enjoy: " ++ "\x27") ++ b.title ++
          ("\x27" ++ tail ++
            ". (Note: AI-enhanced responses are currently unavailable.)") := by
      unfold fallbackResponse
      rw [List.take_succ_cons, List.map_cons]
      rcases pyJoin_cons ", " ("\x27" ++ b.title ++ "\x27")
          ((rest.take 2).map (fun x => "\x27" ++ x.title ++ "\x27")) with ⟨tail, htail⟩
      rw [htail]
      exact ⟨tail, by simp only [String.append_assoc]⟩
    rcases hstruct with ⟨tail, htail⟩
    constructor
    · intro hcontra
      rw [htail] at hcontra
      have hlen := congrArg String.length hcontra
      simp only [String.length_append] at hlen
      have hb : ("Based on your query, you might enjoy: ").length = 38 := rfl
      have hq : ("\x27" : String).length = 1 := rfl
      rw [hb, hq] at hlen
      have hz : ("" : String).length = 0 := rfl
      rw [hz] at hlen
      omega
    · exact ⟨b.title, by simp, _, _, htail⟩

/-- C6 (witness): the fallback at a concrete one-result retrieval with the
generation call failing. -/
theorem plc6_fallback_witness :
    ragSearch envNoGen [recPlain] "q" 10 none none none none =
        .ok { response := fallbackResponse [resPlainR], books := [resPlainR] } ∧
      fallbackResponse [resPlainR] ≠ "" ∧
      ∃ t ∈ [resPlainR].map SearchResult.title, ∃ pre post,
        fallbackResponse [resPlainR] = pre ++ t ++ post :=
  plc6_fallback envNoGen [recPlain] "q" 10 none none none none [resPlainR] rfl
    (by norm_num +decide [vectorStoreSearch, embedText, envNoGen, ensureInitialized,
      matchesWhere, condHolds, recPlain, sortK, insertK, cosineDistance, dotL,
      formatRecord, resPlainR])
    (by simp)

/-- C7: reconciliation is idempotent — with the collection reachable, the
first `sync_from_database` run repairs exactly the books missing from the
index whose re-embedding succeeds (the returned count reflects only
successes), and an immediate second run with no intervening writes repairs
0 and leaves the collection unchanged. -/
theorem plc7_reconcile_idempotent (env : Env) (books : List DbBook)
    (st : List IndexRecord) (hInit : ensureInitialized env = .ok ()) :
    ∃ st1,
      syncFromDatabase env books st =
        .ok (st1, (books.filter (fun b =>
          !(st.map (fun r => r.id)).contains b.book.id && addSucceeds env b)).length) ∧
      syncFromDatabase env books st1 = .ok (st1, 0) := by
  refine ⟨(syncAux env (st.map (fun r => r.id)) books st 0).1, ?_, ?_⟩
  · have h2 := syncAux_snd env (st.map (fun r => r.id)) books st 0
    simp only [syncFromDatabase, hInit]
    exact congrArg Except.ok (Prod.ext rfl (by simpa using h2))
  · have hids := syncAux_fst_ids env (st.map (fun r => r.id)) books st 0
    have hnoop : syncAux env
        ((syncAux env (st.map (fun r => r.id)) books st 0).1.map (fun r => r.id))
        books (syncAux env (st.map (fun r => r.id)) books st 0).1 0 =
        ((syncAux env (st.map (fun r => r.id)) books st 0).1, 0) := by
      apply syncAux_noop
      intro b hb
      cases hs : addSucceeds env b with
      | false => exact Or.inr rfl
      | true =>
        left
        rw [hids]
        by_cases hmem : b.book.id ∈ st.map (fun r => r.id)
        · exact List.mem_append_left _ hmem
        · refine List.mem_append_right _ ?_
          refine List.mem_map.2 ⟨b, ?_, rfl⟩
          refine List.mem_filter.2 ⟨hb, ?_⟩
          simp [hmem, hs]
    simp only [syncFromDatabase, hInit]
    rw [hnoop]

/-- C7 (witness): one missing book: the first run repairs it (count given
by the success filter), the second run repairs 0. -/
theorem plc7_reconcile_idempotent_witness :
    ∃ st1,
      syncFromDatabase envOk [dbPlain] [] =
        .ok (st1, ([dbPlain].filter (fun b =>
          !(([] : List IndexRecord).map (fun r => r.id)).contains b.book.id &&
            addSucceeds envOk b)).length) ∧
      syncFromDatabase envOk [dbPlain] st1 = .ok (st1, 0) :=
  plc7_reconcile_idempotent envOk [dbPlain] [] rfl

/-- C8: an ok search returns `min k (number of matching records)` results —
never more than `k`, fewer when fewer records match, and the empty list on
an empty index; when the embedding and the index are available, the search
returns ok (no error) for any store. -/
theorem plc8_bounded_results (env : Env) (st : List IndexRecord) (q : String)
    (k : Nat) (c m f s : Option String) :
    (∀ l, vectorStoreSearch env st q k c m f s = .ok l →
      l.length = min k (st.filter (matchesWhere c m f s)).length ∧
      l.length ≤ k ∧ (st = [] → l = [])) ∧
    (∀ qe, embedText env q = .ok qe → ensureInitialized env = .ok () →
      ∃ l, vectorStoreSearch env st q k c m f s = .ok l) := by
  constructor
  · intro l hl
    rcases vectorStoreSearch_ok_elim hl with ⟨qe, _, _, rfl⟩
    refine ⟨?_, ?_, ?_⟩
    · rw [List.length_map, List.length_take, length_sortK]
    · rw [List.length_map, List.length_take, length_sortK]
      exact Nat.min_le_left _ _
    · rintro rfl
      simp [sortK]
  · intro qe hqe hinit
    exact ⟨((sortK (fun r => cosineDistance qe r.embedding)
        (st.filter (matchesWhere c m f s))).take k).map (formatRecord qe), by
      simp only [vectorStoreSearch, hqe, hinit]⟩

/-- C8 (witness): the bound at a one-record store with `k = 10`, and
ok-ness of a search over the empty store. -/
theorem plc8_bounded_results_witness :
    (([resPlainR] : List SearchResult).length =
        min 10 ([recPlain].filter (matchesWhere none none none none)).length ∧
      ([resPlainR] : List SearchResult).length ≤ 10 ∧
      (([recPlain] : List IndexRecord) = [] →
        ([resPlainR] : List SearchResult) = [])) ∧
      ∃ l, vectorStoreSearch envOk [] "q" 5 none none none none = .ok l := by
  constructor
  · exact (plc8_bounded_results envOk [recPlain] "q" 10 none none none none).1
      [resPlainR]
      (by norm_num +decide [vectorStoreSearch, embedText, envOk, ensureInitialized,
        matchesWhere, condHolds, recPlain, sortK, insertK, cosineDistance, dotL,
        formatRecord, resPlainR])
  · exact (plc8_bounded_results envOk [] "q" 5 none none none none).2 [(1 : ℚ)] rfl rfl

/-- C9 (counterexample): a stored unit vector opposite to the query
embedding is returned with similarity `-1`, outside the claimed `[0, 1]`
range. -/
theorem plc9_counterexample :
    (okBooks (vectorStoreSearch envOk [recOpp] "q" 10 none none none none)).map
        SearchResult.similarity = [(-1 : ℚ)] ∧ ¬(0:ℚ) ≤ -1 := by
  refine ⟨?_, by norm_num⟩
  norm_num +decide [okBooks, vectorStoreSearch, embedText, envOk, ensureInitialized,
    matchesWhere, condHolds, recOpp, sortK, insertK, cosineDistance, dotL, formatRecord]

/-- C9 (amended): every returned similarity equals `1 - cosine distance`
between the query embedding and the stored vector, results are ordered by
descending similarity, and — for unit-norm query and stored vectors — every
similarity lies in `[-1, 1]`, with an exactly matching vector scoring 1. -/
theorem plc9_amended (env : Env) (st : List IndexRecord) (q : String) (n : Nat)
    (c m f s : Option String) (l : List SearchResult) (qe : List ℚ)
    (h : vectorStoreSearch env st q n c m f s = .ok l)
    (hqe : embedText env q = .ok qe) :
    l.Pairwise (fun a b => b.similarity ≤ a.similarity) ∧
    (∀ res ∈ l, ∃ r, r ∈ st ∧ res = formatRecord qe r ∧
      res.similarity = 1 - cosineDistance qe r.embedding ∧
      (dotL qe qe = 1 → r.embedding = qe → res.similarity = 1)) ∧
    (dotL qe qe = 1 → (∀ r ∈ st, dotL r.embedding r.embedding = 1) →
      ∀ res ∈ l, -1 ≤ res.similarity ∧ res.similarity ≤ 1) := by
  rcases vectorStoreSearch_ok_elim h with ⟨qe', hqe', hinit, hl⟩
  rw [hqe] at hqe'
  injection hqe' with heq
  subst heq
  refine ⟨?_, ?_, ?_⟩
  · subst hl
    have hp := pairwise_sortK (fun r => cosineDistance qe r.embedding)
      (st.filter (matchesWhere c m f s))
    have hp2 := List.Pairwise.sublist (List.take_sublist n _) hp
    exact List.pairwise_map.2 (hp2.imp (fun hab => sub_le_sub_left hab 1))
  · intro res hres
    rcases search_result_sourced h res hres with ⟨qe2, r, hqe2, hr, _, rfl⟩
    rw [hqe] at hqe2
    injection hqe2 with heq2
    subst heq2
    exact ⟨r, hr, rfl, rfl, fun h1 hemb => by
      simp [formatRecord, cosineDistance, hemb, h1]⟩
  · intro h1 hunit res hres
    rcases search_result_sourced h res hres with ⟨qe2, r, hqe2, hr, _, rfl⟩
    rw [hqe] at hqe2
    injection hqe2 with heq2
    subst heq2
    have hcs := dotL_sq_le qe r.embedding
    rw [h1, hunit r hr] at hcs
    have hsim : (formatRecord qe r).similarity = dotL qe r.embedding := by
      simp [formatRecord, cosineDistance]
    constructor
    · rw [hsim]
      nlinarith [sq_nonneg (dotL qe r.embedding + 1)]
    · rw [hsim]
      nlinarith [sq_nonneg (dotL qe r.embedding - 1)]

/-- C9 (witness): the amended theorem at a concrete one-record store with
unit vectors. -/
theorem plc9_amended_witness :
    ([resPlainR] : List SearchResult).Pairwise
        (fun a b => b.similarity ≤ a.similarity) ∧
      (∀ res ∈ [resPlainR], ∃ r, r ∈ [recPlain] ∧
        res = formatRecord [(1 : ℚ)] r ∧
        res.similarity = 1 - cosineDistance [(1 : ℚ)] r.embedding ∧
        (dotL [(1 : ℚ)] [(1 : ℚ)] = 1 → r.embedding = [(1 : ℚ)] →
          res.similarity = 1)) ∧
      (dotL [(1 : ℚ)] [(1 : ℚ)] = 1 →
        (∀ r ∈ [recPlain], dotL r.embedding r.embedding = 1) →
        ∀ res ∈ [resPlainR], -1 ≤ res.similarity ∧ res.similarity ≤ 1) :=
  plc9_amended envOk [recPlain] "q" 10 none none none none [resPlainR] [(1 : ℚ)]
    (by norm_num +decide [vectorStoreSearch, embedText, envOk, ensureInitialized,
      matchesWhere, condHolds, recPlain, sortK, insertK, cosineDistance, dotL,
      formatRecord, resPlainR])
    rfl

theorem addBook_ret_none {env : Env} {st : List IndexRecord} {b : Book}
    {cats moods : List String} {st2 : List IndexRecord} {ret : Option (List ℚ)}
    (h : addBook env st b cats moods = .ok (st2, ret)) : ret = none := by
  unfold addBook at h
  split at h
  · exact absurd h (by simp)
  · split at h
    · exact absurd h (by simp)
    · simp only [Except.ok.injEq, Prod.mk.injEq] at h
      exact h.2.symm

/-- C10: `VectorStore.add_book` and `VectorStore.update_book` return
`None`; the routers assign that value to `book.embedding` before
committing, so the create path always leaves the row's embedding column
`None`, and the update path never populates it (it stays `None` when it was
`None`, and on an embedding failure it keeps the prior value). -/
theorem plc10_embedding_never_populated (env : Env) (st : List IndexRecord)
    (b : Book) (cats moods : List String) (prior : Option (List ℚ)) :
    (createBookFlow env st b cats moods).1 = none ∧
    (∀ st2 ret, addBook env st b cats moods = .ok (st2, ret) → ret = none) ∧
    (∀ st2 ret, updateBookVS env st b cats moods = .ok (st2, ret) → ret = none) ∧
    (prior = none → (updateBookFlow env st b cats moods prior).1 = none) ∧
    ((updateBookFlow env st b cats moods prior).1 = none ∨
      (updateBookFlow env st b cats moods prior).1 = prior) := by
  refine ⟨?_, ?_, ?_, ?_, ?_⟩
  · unfold createBookFlow
    cases hA : addBook env st b cats moods with
    | error e => rfl
    | ok p =>
      cases p with
      | mk st2 ret =>
        simpa using addBook_ret_none hA
  · intro st2 ret hA
    exact addBook_ret_none hA
  · intro st2 ret hA
    unfold updateBookVS at hA
    exact addBook_ret_none hA
  · intro hp
    unfold updateBookFlow
    cases hA : addBook env (vsDeleteBook env st b.id) b cats moods with
    | error e => simpa using hp
    | ok p =>
      cases p with
      | mk st2 ret =>
        simpa using addBook_ret_none hA
  · unfold updateBookFlow
    cases hA : addBook env (vsDeleteBook env st b.id) b cats moods with
    | error e => exact Or.inr rfl
    | ok p =>
      cases p with
      | mk st2 ret =>
        exact Or.inl (by simpa using addBook_ret_none hA)

/-- C10 (witness): at a concrete successful create and update, the
committed embedding column is `None`, and a concrete successful
`add_book` call's return value is `None`. -/
theorem plc10_embedding_never_populated_witness :
    (createBookFlow envOk [] dbPlain.book [] []).1 = none ∧
      (updateBookFlow envOk [] dbPlain.book [] [] none).1 = none ∧
      (none : Option (List ℚ)) = none :=
  ⟨(plc10_embedding_never_populated envOk [] dbPlain.book [] [] none).1,
    (plc10_embedding_never_populated envOk [] dbPlain.book [] [] none).2.2.2.1 rfl,
    (plc10_embedding_never_populated envOk [] dbPlain.book [] [] none).2.1
      [mkRecord dbPlain.book [] [] [(1 : ℚ)]] none rfl⟩

end PLib

